import Mathlib

/-!
Verification of the experiment evaluation engine of the structural damage
prediction repository (`run_experiment.py`, `structureDamagePrediction/datahandling.py`).

The definitions below are a shallow embedding of the relevant source code:
pure computations become Lean functions on `Nat`/`Int`/`ℚ` lists, Python
exceptions (`KeyError`, `ValueError`) become `Option`/`Except` error values.
-/

namespace StructuralDamage

/-! ## Run controller: number of runs and split computation (run_experiment.py) -/

/-- Embeds `run_experiment.py` lines 126-129: under leave-one-out the number of
runs is the dataset size, otherwise it is the constant 3. -/
def number_of_runs (leave_one_out : Bool) (dataset_size : Nat) : Nat :=
  if leave_one_out then dataset_size else 3

/-- Embeds `run_experiment.py` lines 150-152: under leave-one-out the test
instance index set of run `iRun` is the singleton `[iRun]`. -/
def loo_test_instance_idx (iRun : Nat) : List Nat :=
  [iRun]

/-- Embeds `run_experiment.py` lines 158-165: the per-run loop over
`enumerate(dataset)` that sends index `idx` to the test subset when
`idx in test_instance_idx` and to the train subset otherwise.
Returns `(train_indices, test_indices)`. -/
def split_partition (n : Nat) (test_instance_idx : List Nat) : List Nat × List Nat :=
  ((List.range n).filter (fun idx => !decide (idx ∈ test_instance_idx)),
   (List.range n).filter (fun idx => decide (idx ∈ test_instance_idx)))

/-! ## Theorems for claims C1, C2, C9 -/

/-- C1: Under the leave-one-out policy the number of runs equals the dataset
size, run `i` uses exactly `{i}` as its test set (a deterministic value, no
randomness), and the concatenation of the test sets over all runs is exactly
the index range `0..N-1` — each index once, no repeats, no gaps. -/
theorem loo_runs_cover_index_range (N : Nat) :
    number_of_runs true N = N ∧
    (∀ i, loo_test_instance_idx i = [i]) ∧
    (List.range N).flatMap loo_test_instance_idx = List.range N := by
  refine ⟨rfl, fun i => rfl, ?_⟩
  induction N with
  | zero => rfl
  | succ n ih =>
    simp only [List.range_succ, List.flatMap_append] at *
    simp [ih, loo_test_instance_idx]

/-- C2: For any computed test index set whose members are valid dataset
indices, the train and test index sets built by the per-run loop are disjoint,
their union is the full index range `0..N-1`, the test part is exactly the
computed test index set, and the train part is exactly the indices not in the
computed test index set. -/
theorem split_partition_disjoint_cover (n : Nat) (t : List Nat)
    (h : ∀ x ∈ t, x < n) :
    (∀ x, ¬(x ∈ (split_partition n t).1 ∧ x ∈ (split_partition n t).2)) ∧
    (∀ x, x ∈ List.range n ↔ (x ∈ (split_partition n t).1 ∨ x ∈ (split_partition n t).2)) ∧
    (∀ x, x ∈ (split_partition n t).2 ↔ x ∈ t) ∧
    (∀ x, x ∈ (split_partition n t).1 ↔ (x ∈ List.range n ∧ x ∉ t)) := by
  refine ⟨?_, ?_, ?_, ?_⟩
  · intro x ⟨h1, h2⟩
    simp [split_partition, List.mem_filter] at h1 h2
    exact h1.2 h2.2
  · intro x
    constructor
    · intro hx
      by_cases hxt : x ∈ t
      · refine Or.inr ?_
        simp [split_partition, List.mem_filter, hx, hxt]
      · refine Or.inl ?_
        simp [split_partition, List.mem_filter, hx, hxt]
    · rintro (hx | hx) <;> exact (List.mem_filter.mp hx).1
  · intro x
    constructor
    · intro hx
      exact of_decide_eq_true (List.mem_filter.mp hx).2
    · intro hx
      simp [split_partition, List.mem_filter, hx, List.mem_range]
      exact h x hx
  · intro x
    simp [split_partition, List.mem_filter]

/-- Witness for C2 at the concrete input `n = 4`, `test = [1, 3]`. -/
theorem split_partition_disjoint_cover_witness :
    3 ∈ (split_partition 4 [1, 3]).2 ↔ 3 ∈ [1, 3] :=
  (split_partition_disjoint_cover 4 [1, 3] (by decide)).2.2.1 3

/-- C9: For every splitting policy other than leave-one-out, the controller
performs exactly 3 runs, whatever the dataset size. -/
theorem non_loo_run_count_is_three (dataset_size : Nat) :
    number_of_runs false dataset_size = 3 :=
  rfl

/-! ## Metrics aggregator: confusion matrix (run_experiment.py lines 276-287) -/

/-- Embeds `run_experiment.py` line 277, `classes = list(map(str, set(real_list)))`:
string conversion is injective on the integer labels, so cells are keyed by the
labels themselves; `set(real_list)` is modelled by `dedup`. -/
def cm_classes (real_list : List Int) : List Int :=
  real_list.dedup

/-- Embeds the dict-of-dicts update of `run_experiment.py` lines 286-287 on one
`(true, predicted)` pair: `conf_matrix[str(t)][str(p)] = conf_matrix[str(t)][str(p)] + 1`
raises `KeyError` (modelled as `none`) when a key is absent, i.e. when the true
or the predicted label is not in `classes`. -/
def cm_update (classes : List Int) (m : Int × Int → Nat) (tp : Int × Int) :
    Option (Int × Int → Nat) :=
  if tp.1 ∈ classes ∧ tp.2 ∈ classes then
    some (fun q => if q = tp then m q + 1 else m q)
  else
    none

/-- Embeds the update loop of `run_experiment.py` line 286: fold `cm_update`
over the remaining `(true, predicted)` pairs, aborting on `KeyError`. -/
def cm_fold (classes : List Int) (m : Int × Int → Nat) :
    List (Int × Int) → Option (Int × Int → Nat)
  | [] => some m
  | tp :: rest => (cm_update classes m tp).bind (fun m2 => cm_fold classes m2 rest)

/-- Embeds `run_experiment.py` lines 276-287: every cell over `classes × classes`
is initialized to 0, then the update loop runs over `zip(real_list, predicted_list)`. -/
def cm_build (real_list predicted_list : List Int) : Option (Int × Int → Nat) :=
  cm_fold (cm_classes real_list) (fun _ => 0) (real_list.zip predicted_list)

theorem cm_fold_ok (classes : List Int) (pairs : List (Int × Int))
    (m : Int × Int → Nat)
    (h : ∀ tp ∈ pairs, tp.1 ∈ classes ∧ tp.2 ∈ classes) :
    cm_fold classes m pairs = some (fun q => m q + pairs.count q) := by
  induction pairs generalizing m with
  | nil => simp [cm_fold]
  | cons a t ih =>
    obtain ⟨ha1, ha2⟩ := h a (List.mem_cons_self a t)
    have hupd : cm_update classes m a = some (fun q => if q = a then m q + 1 else m q) := by
      simp [cm_update, ha1, ha2]
    simp only [cm_fold, hupd, Option.some_bind]
    rw [ih _ (fun tp htp => h tp (List.mem_cons_of_mem a htp))]
    congr 1
    funext q
    simp only [List.count_cons, beq_iff_eq]
    by_cases hq : q = a
    · subst hq
      rw [if_pos rfl, if_pos rfl]
      omega
    · rw [if_neg hq, if_neg (fun hc => hq hc.symm)]
      omega

theorem count_sum_over_finset (S : Finset (Int × Int)) (l : List (Int × Int))
    (h : ∀ x ∈ l, x ∈ S) :
    (∑ q ∈ S, l.count q) = l.length := by
  induction l with
  | nil => simp
  | cons a t ih =>
    have ha : a ∈ S := h a (List.mem_cons_self a t)
    have ht : ∀ x ∈ t, x ∈ S := fun x hx => h x (List.mem_cons_of_mem a hx)
    simp only [List.count_cons, List.length_cons, beq_iff_eq]
    rw [Finset.sum_add_distrib, ih ht]
    congr 1
    rw [Finset.sum_ite_eq S a (fun _ => 1)]
    simp [ha]

/-- Counterexample for C3: with `real_list = [0]` and `predicted_list = [1]` the
predicted label 1 never occurs as a true label, and the update
`conf_matrix["0"]["1"] += 1` raises `KeyError`: no confusion matrix is produced
at all, so the predicted-only label is not "counted as a column entry inside
the existing rows". -/
theorem cm_keyerror_on_unseen_predicted_label :
    ¬ ∃ m, cm_build [0] [1] = some m := by
  rintro ⟨m, hm⟩
  have hnone : cm_build [0] [1] = none := rfl
  rw [hnone] at hm
  exact Option.noConfusion hm

/-- C3 (amended): provided every predicted label of a pair also occurs as a true
label, the confusion matrix is built without error, cell `[t][p]` equals the
count of pairs with true `t` and predicted `p`, and the sum of all cells over
`classes × classes` equals the total number of pairs. When some predicted label
never occurs as a true label the update raises `KeyError` instead of counting it. -/
theorem cm_cells_count_pairs (real_list predicted_list : List Int)
    (h : ∀ tp ∈ real_list.zip predicted_list, tp.2 ∈ real_list) :
    cm_build real_list predicted_list
      = some (fun q => (real_list.zip predicted_list).count q) ∧
    (∑ t ∈ (cm_classes real_list).toFinset, ∑ p ∈ (cm_classes real_list).toFinset,
        (real_list.zip predicted_list).count (t, p))
      = (real_list.zip predicted_list).length := by
  have hmem : ∀ tp ∈ real_list.zip predicted_list,
      tp.1 ∈ cm_classes real_list ∧ tp.2 ∈ cm_classes real_list := by
    rintro ⟨a, b⟩ htp
    have h1 : a ∈ real_list := (List.of_mem_zip htp).1
    have h2 : b ∈ real_list := h (a, b) htp
    exact ⟨List.mem_dedup.mpr h1, List.mem_dedup.mpr h2⟩
  constructor
  · rw [cm_build, cm_fold_ok _ _ _ hmem]
    congr 1
    funext q
    omega
  · rw [← Finset.sum_product']
    refine count_sum_over_finset _ _ ?_
    rintro ⟨a, b⟩ hab
    rw [Finset.mem_product]
    obtain ⟨m1, m2⟩ := hmem (a, b) hab
    exact ⟨List.mem_toFinset.mpr m1, List.mem_toFinset.mpr m2⟩

/-- Witness for C3 (amended) at `real_list = [0, 1, 0]`, `predicted_list = [1, 0, 0]`. -/
theorem cm_cells_count_pairs_witness :
    (∑ t ∈ (cm_classes [0, 1, 0]).toFinset, ∑ p ∈ (cm_classes [0, 1, 0]).toFinset,
        (([0, 1, 0] : List Int).zip ([1, 0, 0] : List Int)).count (t, p))
      = (([0, 1, 0] : List Int).zip ([1, 0, 0] : List Int)).length :=
  (cm_cells_count_pairs [0, 1, 0] [1, 0, 0] (by decide)).2

/-! ## Stratify and random split branches (run_experiment.py lines 142-156) -/

/-- Embeds `run_experiment.py` lines 142-148: under the stratify policy the test
index set is `train_test_split(np.arange(len(dataset)), test_size=0.20,
random_state=5, shuffle=True, stratify=labels)[1]`. The library function
`train_test_split` is an external collaborator and is abstracted as the
parameter `tts` (indices, test size, random state, labels ↦ test indices).
The run index `iRun` is in scope in the source loop but does not occur in any
argument of the call. -/
def stratify_test_instance_idx
    (tts : List Nat → ℚ → Nat → List Nat → List Nat)
    (dataset_size : Nat) (labels : List Nat) (iRun : Nat) : List Nat :=
  tts (List.range dataset_size) (1 / 5) 5 labels

/-- Modelled from the spec: sklearn's `train_test_split` (an external
collaborator, spec §4.1) performs "a stratified random sample ... using a fixed
seed so the sample is reproducible", i.e. it is a deterministic function of its
arguments. This concrete instance draws the first `⌈test_size · n⌉` indices. -/
def tts_model (indices : List Nat) (test_size : ℚ) (random_state : Nat)
    (labels : List Nat) : List Nat :=
  indices.take (Nat.ceil (test_size * indices.length))

/-- Counterexample for C4: on a dataset of size 10, run 0 and run 1 of the
stratify policy produce the same test index set (the call fixes
`random_state=5` and no argument varies with the run index), so it is false
that two distinct runs produce different test index sets. -/
theorem stratify_runs_identical_cx :
    ¬ (stratify_test_instance_idx tts_model 10 [0, 0, 1, 1, 2, 2, 0, 1, 2, 0] 0
        ≠ stratify_test_instance_idx tts_model 10 [0, 0, 1, 1, 2, 2, 0, 1, 2, 0] 1) :=
  fun h => h rfl

/-- C4 (amended): under the stratify policy the random draw does not vary with
the run index: the call passes the constant seed `random_state=5` and only
run-independent arguments, so for every behaviour of `train_test_split` and
every two runs `i`, `j` on the same dataset the test index sets are identical. -/
theorem stratify_test_idx_run_independent
    (tts : List Nat → ℚ → Nat → List Nat → List Nat)
    (dataset_size : Nat) (labels : List Nat) (i j : Nat) :
    stratify_test_instance_idx tts dataset_size labels i
      = stratify_test_instance_idx tts dataset_size labels j :=
  rfl

/-- Embeds `run_experiment.py` line 155: the size of the random test draw is
`math.ceil(test_perc * len(dataset))` with `test_perc = 0.20` for the
non-leave-one-out policies (the literal 0.20 modelled as the exact rational). -/
def random_test_size (dataset_size : Nat) : Nat :=
  Nat.ceil ((1 / 5 : ℚ) * dataset_size)

/-- Embeds `run_experiment.py` lines 149-156, random-policy branch: the test
index set is whatever `np.random.choice(range(n), size, replace=False)`
(abstracted as `choice`) returns. The codomain records that the branch has an
error channel available but never uses it: the source defines and raises no
`InvalidSplitError` anywhere and performs no emptiness check. -/
def random_split_test_idx (choice : Nat → Nat → List Nat) (dataset_size : Nat) :
    Except String (List Nat) :=
  Except.ok (choice dataset_size (random_test_size dataset_size))

/-- Modelled from the spec: `np.random.choice(range(n), size, replace=False)`
(spec §4.1, "uniform random sample ... without replacement") returns `size`
distinct indices; this concrete instance takes the first `size`. -/
def choice_model (n : Nat) (size : Nat) : List Nat :=
  (List.range n).take size

/-- Counterexample for C5: on a dataset of size 0 the random policy draws a test
set of size `⌈0.2 · 0⌉ = 0`, and the split computation proceeds normally with
the empty test set — it does not fail with any error (no `InvalidSplitError`
exists in the source). -/
theorem empty_test_set_not_an_error_cx :
    random_test_size 0 = 0 ∧
    random_split_test_idx choice_model 0 = Except.ok [] ∧
    ¬ ∃ e, random_split_test_idx choice_model 0 = Except.error e := by
  have h0 : random_test_size 0 = 0 := by
    simp [random_test_size]
  refine ⟨h0, ?_, ?_⟩
  · rw [random_split_test_idx, h0]
    rfl
  · rintro ⟨e, he⟩
    rw [random_split_test_idx] at he
    exact Except.noConfusion he

/-- C5 (amended): the source contains no `InvalidSplitError` and no emptiness
check on the computed test set; under the random policy the drawn size is
`⌈0.2 · N⌉ ≥ 1` whenever `N ≥ 1`, so an empty test draw only arises at `N = 0`,
where the computation proceeds with the empty test set instead of failing. -/
theorem random_split_size_pos_and_no_error (choice : Nat → Nat → List Nat)
    (dataset_size : Nat) (h : 1 ≤ dataset_size) :
    0 < random_test_size dataset_size ∧
    random_split_test_idx choice dataset_size
      = Except.ok (choice dataset_size (random_test_size dataset_size)) := by
  refine ⟨?_, rfl⟩
  rw [random_test_size, Nat.ceil_pos]
  have hq : (0 : ℚ) < dataset_size := by
    exact_mod_cast h
  positivity

/-- Witness for C5 (amended) at dataset size 5 with the concrete choice model. -/
theorem random_split_size_pos_and_no_error_witness :
    0 < random_test_size 5 ∧
    random_split_test_idx choice_model 5
      = Except.ok (choice_model 5 (random_test_size 5)) :=
  random_split_size_pos_and_no_error choice_model 5 (by decide)

/-! ## Metrics aggregator: accuracy and standard error (run_experiment.py lines 260-273) -/

/-- Embeds `run_experiment.py` line 261:
`1.0 * sum([real_list[iCnt] == predicted_list[iCnt] for iCnt in range(len(real_list))]) / len(real_list)`,
the index-based count of agreeing positions divided by the length. -/
def accuracy (real_list predicted_list : List Int) : ℚ :=
  (((List.range real_list.length).countP
      (fun iCnt => decide (real_list.getD iCnt 0 = predicted_list.getD iCnt 0)) : ℚ))
    / (real_list.length : ℚ)

/-- Embeds the helper `acc` of `run_experiment.py` lines 264-268: 1.0 when the
pair agrees, 0.0 otherwise. -/
def acc (realAndPredTuple : Int × Int) : ℚ :=
  if realAndPredTuple.1 = realAndPredTuple.2 then 1 else 0

/-- Embeds line 271: `perFoldAcc = list(map(acc, zip(real_list, predicted_list)))`. -/
def perFoldAcc (real_list predicted_list : List Int) : List ℚ :=
  (real_list.zip predicted_list).map acc

/-- Embeds `np.average`: the arithmetic mean. -/
def np_average (xs : List ℚ) : ℚ :=
  xs.sum / xs.length

/-- Population variance (`ddof = 0`), the square of what `np.std` returns. -/
def np_var (xs : List ℚ) : ℚ :=
  (xs.map (fun x => (x - np_average xs) ^ 2)).sum / xs.length

/-- Embeds `np.std(xs)`: the population standard deviation (`ddof = 0`). -/
noncomputable def np_std (xs : List ℚ) : ℝ :=
  Real.sqrt (np_var xs)

/-- Embeds line 273: `stdErrAcc = np.std(perFoldAcc) / np.sqrt(len(real_list))`. -/
noncomputable def stdErrAcc (real_list predicted_list : List Int) : ℝ :=
  np_std (perFoldAcc real_list predicted_list) / Real.sqrt (real_list.length)

/-- The 0/1 per-pair correctness vector, written from the spec's words. -/
def correctness_vec (real_list predicted_list : List Int) : List ℚ :=
  (real_list.zip predicted_list).map (fun rp => if rp.1 = rp.2 then 1 else 0)

/-- Population standard deviation (`ddof = 0`), written from the spec's words:
the square root of the mean squared deviation from the mean. -/
noncomputable def population_std (xs : List ℚ) : ℝ :=
  Real.sqrt (((xs.map (fun x => (x - xs.sum / xs.length) ^ 2)).sum / xs.length : ℚ))

theorem countP_range_getD_eq_zip (r p : List Int) (h : r.length = p.length) :
    (List.range r.length).countP
        (fun iCnt => decide (r.getD iCnt 0 = p.getD iCnt 0))
      = (r.zip p).countP (fun rp => decide (rp.1 = rp.2)) := by
  induction r generalizing p with
  | nil => simp
  | cons a r' ih =>
    cases p with
    | nil => simp at h
    | cons b p' =>
      have h' : r'.length = p'.length := by simpa using h
      rw [List.length_cons, List.range_succ_eq_map]
      simp only [List.countP_cons, List.countP_map, Function.comp_def,
        List.getD_cons_succ, List.getD_cons_zero, List.zip_cons_cons]
      rw [ih p' h']

/-- C6: For a non-empty list of (real, predicted) pairs the reported accuracy is
the number of agreeing pairs divided by the total, and the reported standard
error is the population standard deviation (ddof = 0) of the 0/1 per-pair
correctness vector divided by the square root of the number of pairs. -/
theorem accuracy_and_stderr_formulas (real_list predicted_list : List Int)
    (h1 : real_list ≠ []) (h2 : real_list.length = predicted_list.length) :
    accuracy real_list predicted_list
      = (((real_list.zip predicted_list).countP (fun rp => decide (rp.1 = rp.2)) : ℚ))
          / (real_list.length : ℚ) ∧
    stdErrAcc real_list predicted_list
      = population_std (correctness_vec real_list predicted_list)
          / Real.sqrt (real_list.length) := by
  constructor
  · rw [accuracy, countP_range_getD_eq_zip real_list predicted_list h2]
  · unfold stdErrAcc np_std np_var np_average population_std perFoldAcc correctness_vec acc
    rfl

/-- Witness for C6 at `real_list = [0, 1, 2]`, `predicted_list = [0, 0, 2]`. -/
theorem accuracy_and_stderr_formulas_witness :
    accuracy [0, 1, 2] [0, 0, 2]
      = (((([0, 1, 2] : List Int).zip ([0, 0, 2] : List Int)).countP
            (fun rp => decide (rp.1 = rp.2)) : ℚ))
          / ((([0, 1, 2] : List Int).length : ℚ)) :=
  (accuracy_and_stderr_formulas [0, 1, 2] [0, 0, 2] (by decide) (by decide)).1

/-! ## File reading: feature selection (datahandling.py lines 118-126) -/

/-- Embeds `FileDataReader.read_sequence`, `datahandling.py` lines 118-126: with
an explicit selection the line's fields are picked by
`[cur_line_fields[idx] for idx in self.selected_features]` (out-of-range gives
an `IndexError`, modelled as `none`); with no selection, `cur_line_fields[1:]`
drops column 0 (time). -/
def select_line_fields (selected_features : Option (List Nat))
    (cur_line_fields : List String) : Option (List String) :=
  match selected_features with
  | some sel => sel.mapM (fun idx => cur_line_fields[idx]?)
  | none => some (cur_line_fields.drop 1)

/-- Field selection as the spec (and the source's own comment "we reduce index
values") words it: the externally 1-based indices are decremented before
selecting the corresponding columns. -/
def select_line_fields_reduced (sel : List Nat) (cur_line_fields : List String) :
    Option (List String) :=
  sel.mapM (fun idx => cur_line_fields[idx - 1]?)

/-- C7: evaluation at the failing input. Without a selection, column 0 (time) is
dropped, as claimed. With the selection `[1]` on the row
`["0.00", "5.0", "6.0", "7.0"]` the code picks column 1 — it never decrements
the index, contradicting its own comment and the claim, under which the
decremented index 0 would pick column 0. -/
theorem feature_selection_no_decrement :
    select_line_fields none ["0.00", "5.0", "6.0", "7.0"]
      = some ["5.0", "6.0", "7.0"] ∧
    select_line_fields (some [1]) ["0.00", "5.0", "6.0", "7.0"] = some ["5.0"] ∧
    select_line_fields_reduced [1] ["0.00", "5.0", "6.0", "7.0"] = some ["0.00"] ∧
    select_line_fields (some [1]) ["0.00", "5.0", "6.0", "7.0"]
      ≠ select_line_fields_reduced [1] ["0.00", "5.0", "6.0", "7.0"] := by
  refine ⟨rfl, rfl, rfl, ?_⟩
  decide

/-! ## File reading: global min/max normalization (datahandling.py lines 64-71) -/

/-- Minimum of a list of rationals (Python `min` / tensor `.min()`; the source
never applies it to an empty collection). -/
def list_min : List ℚ → ℚ
  | [] => 0
  | x :: xs => xs.foldl min x

/-- Maximum of a list of rationals (Python `max` / tensor `.max()`). -/
def list_max : List ℚ → ℚ
  | [] => 0
  | x :: xs => xs.foldl max x

/-- Embeds `datahandling.py` lines 64-71, with each case's tensor modelled as
the flat list of its entries:
`min_val = min(map(lambda x: x.min(), sequence_data))`, then every sequence is
shifted by `-min_val`, then `max_val = max(map(lambda x: x.max(), sequence_data)) - min_val`
is computed **on the already shifted data**, and every sequence is divided by it. -/
def normalize_sequences (sequence_data : List (List ℚ)) : List (List ℚ) :=
  let min_val := list_min (sequence_data.map list_min)
  let shifted := sequence_data.map (fun x => x.map (fun v => v - min_val))
  let max_val := list_max (shifted.map list_max) - min_val
  shifted.map (fun x => x.map (fun v => v / max_val))

/-- C8: evaluation at the failing input. For the single case `[1, 3]` the global
minimum is 1 and the global maximum 3 (strictly larger), yet normalization
returns `[0, 2]`: the divisor is computed from the already shifted data and has
the minimum subtracted a second time (`(3 - 1) - 1 = 1`), so the global maximum
maps to 2, outside `[0, 1]`, instead of to 1. -/
theorem normalization_exceeds_unit_interval :
    normalize_sequences [[1, 3]] = [[0, 2]] ∧ ¬ ((2 : ℚ) ≤ 1) := by
  constructor
  · norm_num [normalize_sequences, list_min, list_max]
  · norm_num

/-! ## Classification label transform (run_experiment.py lines 107-118, datahandling.py lines 197-201) -/

/-- Embeds the literal list `[0.025, 0.05, 0.10]` of `run_experiment.py`
line 108, as exact rationals. -/
def class_values : List ℚ :=
  [1 / 40, 1 / 20, 1 / 10]

/-- Embeds Python `list.index(x)`: the index of the first occurrence of `x`,
or a `ValueError` when `x` is absent. -/
def list_index (x : ℚ) : List ℚ → Except String Nat
  | [] => Except.error "ValueError"
  | y :: rest => if y = x then Except.ok 0 else (list_index x rest).map (· + 1)

/-- Embeds `run_experiment.py` lines 107-109: `transform_func(x)` returns
`[0.025, 0.05, 0.10].index(x)`. -/
def transform_func (x : ℚ) : Except String Nat :=
  list_index x class_values

/-- Embeds the label pass of `StructuralDamageDataset.__init__`
(`datahandling.py` lines 197-201): the label transform is mapped over the whole
metadata list at construction time — before any run starts — and the first
`ValueError` aborts construction. -/
def dataset_labels : List ℚ → Except String (List Nat)
  | [] => Except.ok []
  | x :: rest =>
    match transform_func x with
    | Except.error e => Except.error e
    | Except.ok l =>
      match dataset_labels rest with
      | Except.error e => Except.error e
      | Except.ok ls => Except.ok (l :: ls)

theorem list_index_not_mem (x : ℚ) (l : List ℚ) (hx : x ∉ l) :
    list_index x l = Except.error "ValueError" := by
  induction l with
  | nil => rfl
  | cons y rest ih =>
    have hne : ¬ y = x := fun hh => hx (hh ▸ List.mem_cons_self y rest)
    rw [list_index, if_neg hne, ih (fun hm => hx (List.mem_cons_of_mem y hm))]
    rfl

theorem transform_func_not_mem (x : ℚ) (hx : x ∉ class_values) :
    transform_func x = Except.error "ValueError" :=
  list_index_not_mem x class_values hx

theorem dataset_labels_error_of_invalid (percs : List ℚ) (x : ℚ)
    (hxp : x ∈ percs) (hxc : x ∉ class_values) :
    ∃ e, dataset_labels percs = Except.error e := by
  induction percs with
  | nil => cases hxp
  | cons a rest ih =>
    rcases List.mem_cons.mp hxp with heq | hmem
    · subst heq
      exact ⟨"ValueError", by simp only [dataset_labels, transform_func_not_mem x hxc]⟩
    · obtain ⟨e, he⟩ := ih hmem
      cases htf : transform_func a with
      | error e2 => exact ⟨e2, by simp only [dataset_labels, htf]⟩
      | ok l => exact ⟨e, by simp only [dataset_labels, htf, he]⟩

/-- C10: the label transform sends the damage percentages 0.025, 0.05 and 0.10
to the class indices 0, 1 and 2; on any other value it raises `ValueError`, and
a single invalid damage percentage anywhere in the metadata makes dataset
construction — which runs before any experiment run — fail with that error. -/
theorem transform_func_damage_classes (x : ℚ) (percs : List ℚ) :
    transform_func (1 / 40) = Except.ok 0 ∧
    transform_func (1 / 20) = Except.ok 1 ∧
    transform_func (1 / 10) = Except.ok 2 ∧
    (x ∉ class_values → transform_func x = Except.error "ValueError") ∧
    (x ∈ percs → x ∉ class_values → ∃ e, dataset_labels percs = Except.error e) :=
  ⟨by norm_num [transform_func, class_values, list_index, Except.map],
   by norm_num [transform_func, class_values, list_index, Except.map],
   by norm_num [transform_func, class_values, list_index, Except.map],
   fun hx => transform_func_not_mem x hx,
   fun hxp hxc => dataset_labels_error_of_invalid percs x hxp hxc⟩

/-- Witness for C10 at the invalid damage percentage 1/2 inside the metadata
list `[1/40, 1/2]`. -/
theorem transform_func_damage_classes_witness :
    (1 / 2 : ℚ) ∉ class_values ∧
    transform_func (1 / 2) = Except.error "ValueError" ∧
    ∃ e, dataset_labels [1 / 40, 1 / 2] = Except.error e :=
  ⟨by norm_num [class_values],
   (transform_func_damage_classes (1 / 2) [1 / 40, 1 / 2]).2.2.2.1 (by norm_num [class_values]),
   (transform_func_damage_classes (1 / 2) [1 / 40, 1 / 2]).2.2.2.2 (by norm_num)
     (by norm_num [class_values])⟩

end StructuralDamage
